import Mathlib

/-!
# libosrmc: the example driver `example.c`

A shallow embedding of `main` from `example.c` and a verification of its
resource-lifecycle discipline.

`main` talks to the routing library only through the `osrmc_*` entry points.
The library itself is an external collaborator, so it is modelled as an
oracle: a record holding the value each entry point returns.  `main` calls
every entry point that returns a value at most once per run, hence a record
of return values covers every possible behaviour of the library.  A run of
`main` is the ordered list of calls it makes (with their arguments and
results) together with the exit status.
-/

namespace Osrmc

/-! ## Data model -/

/-- A C pointer value; the four handle types `osrmc_config_t`, `osrmc_osrm_t`,
`osrmc_route_params_t` and `osrmc_route_response_t` are pointers. -/
abbrev Ptr := Nat

/-- The null pointer: `!p` holds in C exactly when `p = NULL`. -/
def NULL : Ptr := 0

/-- A decimal floating constant exactly as it is written in the source text:
`digits / 10 ^ scale`.  `7.419758` is `⟨7419758, 6⟩`.  The constants are only
passed on to the library, never computed with. -/
structure Decimal where
  digits : Int
  scale : Nat
deriving DecidableEq, Repr

/-- A `float` returned by the library, kept as its 32-bit pattern.  `main` only
hands these values on to `printf`. -/
abbrev CFloat := Nat

/-- Value of the macro `EXIT_SUCCESS` of `<stdlib.h>` (0 on every hosted
platform). -/
def EXIT_SUCCESS : Int := 0

/-- Value of the macro `EXIT_FAILURE` of `<stdlib.h>` (1 in glibc, musl and the
BSD and Windows C libraries); it differs from `EXIT_SUCCESS`. -/
def EXIT_FAILURE : Int := 1

/-- The four kinds of resource; they are distinct C types. -/
inductive Kind where
  | config
  | osrm
  | params
  | response
deriving DecidableEq, Repr

/-- A typed handle: the resource kind together with the pointer value. -/
structure Handle where
  kind : Kind
  ptr : Ptr
deriving DecidableEq, Repr

/-- One call made by `main`, with its arguments and (where it has one) the
value it returned.  The parameter names `longitude` and `latitude` of
`osrmc_route_params_add_coordinate` are those of the specification (the header
`osrmc.h` fixes that the second argument is the longitude and the third the
latitude). -/
inductive Call where
  | fprintf_stderr (format : String) (args : List String)
  | printf (format : String) (arg : CFloat)
  | osrmc_config_construct (path : String) (ret : Ptr)
  | osrmc_osrm_construct (config : Ptr) (ret : Ptr)
  | osrmc_route_params_construct (ret : Ptr)
  | osrmc_route_params_add_coordinate (params : Ptr) (longitude latitude : Decimal)
  | osrmc_route (osrm params : Ptr) (ret : Ptr)
  | osrmc_route_response_distance (response : Ptr) (ret : CFloat)
  | osrmc_route_response_duration (response : Ptr) (ret : CFloat)
  | osrmc_route_response_destruct (response : Ptr)
  | osrmc_route_params_destruct (params : Ptr)
  | osrmc_osrm_destruct (osrm : Ptr)
  | osrmc_config_destruct (config : Ptr)
deriving DecidableEq, Repr

/-- The call trace of a run. -/
abbrev Trace := List Call

/-- What the library answers during one run: the value returned by each entry
point that returns one. -/
structure Library where
  config : Ptr
  osrm : Ptr
  params : Ptr
  response : Ptr
  distance : CFloat
  duration : CFloat
deriving DecidableEq, Repr

/-- A finished run of `main`: the calls made, in order, and the value returned. -/
structure Run where
  trace : Trace
  status : Int
deriving DecidableEq, Repr

/-- Perform the call `c`, then continue as `r`. -/
def emit (c : Call) (r : Run) : Run :=
  ⟨c :: r.trace, r.status⟩

/-! ## The program -/

/-- Label `usage_failure:` (line 60). -/
def usage_failure : Run :=
  ⟨[], EXIT_FAILURE⟩

/-- Label `config_failure:` (line 58), falling through to `usage_failure`. -/
def config_failure (config : Ptr) : Run :=
  emit (.osrmc_config_destruct config) usage_failure

/-- Label `osrm_failure:` (line 56), falling through to `config_failure`. -/
def osrm_failure (osrm config : Ptr) : Run :=
  emit (.osrmc_osrm_destruct osrm) (config_failure config)

/-- Label `params_failure:` (line 54), falling through to `osrm_failure`. -/
def params_failure (params osrm config : Ptr) : Run :=
  emit (.osrmc_route_params_destruct params) (osrm_failure osrm config)

/-- Label `response_failure:` (line 52), falling through to `params_failure`. -/
def response_failure (response params osrm config : Ptr) : Run :=
  emit (.osrmc_route_response_destruct response) (params_failure params osrm config)

/-- The function `main` of `example.c`, run against the library answers `lib`. -/
def main (argc : Int) (argv : List String) (lib : Library) : Run :=
  if argc ≠ 2 then
    emit (.fprintf_stderr "Usage: %s monaco.osrm" [argv.getD 0 ""]) usage_failure
  else
    let config := lib.config
    emit (.osrmc_config_construct (argv.getD 1 "") config) <|
    if config = NULL then
      emit (.fprintf_stderr "Error: unable to construct engine config" [])
        (config_failure config)
    else
      let osrm := lib.osrm
      emit (.osrmc_osrm_construct config osrm) <|
      if osrm = NULL then
        emit (.fprintf_stderr "Error: unable to construct routing machine" [])
          (osrm_failure osrm config)
      else
        let params := lib.params
        emit (.osrmc_route_params_construct params) <|
        if params = NULL then
          emit (.fprintf_stderr "Error: unable to construct route parameters" [])
            (params_failure params osrm config)
        else
          emit (.osrmc_route_params_add_coordinate params ⟨7419758, 6⟩ ⟨43731142, 6⟩) <|
          emit (.osrmc_route_params_add_coordinate params ⟨7419505, 6⟩ ⟨43736825, 6⟩) <|
          let response := lib.response
          emit (.osrmc_route osrm params response) <|
          if response = NULL then
            emit (.fprintf_stderr "Error: unable to construct route response" [])
              (response_failure response params osrm config)
          else
            let distance := lib.distance
            emit (.osrmc_route_response_distance response distance) <|
            let duration := lib.duration
            emit (.osrmc_route_response_duration response duration) <|
            emit (.printf "Distance: %.0f meters\n" distance) <|
            emit (.printf "Duration: %.0f second\n" duration) <|
            ⟨[], EXIT_SUCCESS⟩

/-! ## Observations on a trace -/

/-- The handle a constructor call returned, null or not.  `osrmc_route` is the
constructor of a response. -/
def Call.returned : Call → Option Handle
  | .osrmc_config_construct _ ret => some ⟨.config, ret⟩
  | .osrmc_osrm_construct _ ret => some ⟨.osrm, ret⟩
  | .osrmc_route_params_construct ret => some ⟨.params, ret⟩
  | .osrmc_route _ _ ret => some ⟨.response, ret⟩
  | _ => none

/-- The resource a call successfully constructed: the returned handle when it
is not null. -/
def Call.constructs (c : Call) : Option Handle :=
  (c.returned).filter (fun h => h.ptr ≠ NULL)

/-- The handle a destructor call is invoked on. -/
def Call.destroys : Call → Option Handle
  | .osrmc_route_response_destruct p => some ⟨.response, p⟩
  | .osrmc_route_params_destruct p => some ⟨.params, p⟩
  | .osrmc_osrm_destruct p => some ⟨.osrm, p⟩
  | .osrmc_config_destruct p => some ⟨.config, p⟩
  | _ => none

/-- The handles passed to a library operation that is not a destructor. -/
def Call.uses : Call → List Handle
  | .osrmc_osrm_construct config _ => [⟨.config, config⟩]
  | .osrmc_route_params_add_coordinate params _ _ => [⟨.params, params⟩]
  | .osrmc_route osrm params _ => [⟨.osrm, osrm⟩, ⟨.params, params⟩]
  | .osrmc_route_response_distance response _ => [⟨.response, response⟩]
  | .osrmc_route_response_duration response _ => [⟨.response, response⟩]
  | _ => []

/-- Every handle passed to a call, destructors included. -/
def Call.handles (c : Call) : List Handle :=
  c.uses ++ (c.destroys).toList

/-- Whether the call goes to the routing library (and not to `<stdio.h>`). -/
def Call.isLibrary : Call → Bool
  | .fprintf_stderr _ _ => false
  | .printf _ _ => false
  | _ => true

/-- The resources successfully constructed along a trace, in order. -/
def constructed (t : Trace) : List Handle :=
  t.filterMap Call.constructs

/-- The handles returned by the constructor calls of a trace, null ones
included. -/
def returned (t : Trace) : List Handle :=
  t.filterMap Call.returned

/-- The handles the destructor calls of a trace were invoked on, in order. -/
def destroyed (t : Trace) : List Handle :=
  t.filterMap Call.destroys

/-- The pointers the destructor of kind `k` was invoked on along a trace. -/
def destroyedOf (k : Kind) (t : Trace) : List Ptr :=
  ((destroyed t).filter (fun h => h.kind = k)).map Handle.ptr

/-- Modelled from the spec: the effect on a route query of the library
functions `osrmc_route_params_construct` and `osrmc_route_params_add_coordinate`,
whose bodies are not part of `example.c`.  For the query held by the params
handle `p`: `osrmc_route_params_construct` returning `p` starts an empty query,
`osrmc_route_params_add_coordinate` on `p` appends one (longitude, latitude)
pair at the end of the ordered sequence. -/
def queryStep (p : Ptr) (q : List (Decimal × Decimal)) : Call → List (Decimal × Decimal)
  | .osrmc_route_params_construct ret => if ret = p then [] else q
  | .osrmc_route_params_add_coordinate params longitude latitude =>
    if params = p then q ++ [(longitude, latitude)] else q
  | _ => q

/-- The route query held by the params handle `p` after the calls of `t`: the
coordinates appended since `p` was constructed, in the order of the calls. -/
def queryOf (p : Ptr) (t : Trace) : List (Decimal × Decimal) :=
  t.foldl (queryStep p) []

/-- The functions `main` calls. -/
inductive Fn where
  | fprintf
  | printf
  | osrmc_config_construct
  | osrmc_osrm_construct
  | osrmc_route_params_construct
  | osrmc_route_params_add_coordinate
  | osrmc_route
  | osrmc_route_response_distance
  | osrmc_route_response_duration
  | osrmc_route_response_destruct
  | osrmc_route_params_destruct
  | osrmc_osrm_destruct
  | osrmc_config_destruct
deriving DecidableEq, Repr

/-- The function a call goes to. -/
def Call.fn : Call → Fn
  | .fprintf_stderr _ _ => .fprintf
  | .printf _ _ => .printf
  | .osrmc_config_construct _ _ => .osrmc_config_construct
  | .osrmc_osrm_construct _ _ => .osrmc_osrm_construct
  | .osrmc_route_params_construct _ => .osrmc_route_params_construct
  | .osrmc_route_params_add_coordinate _ _ _ => .osrmc_route_params_add_coordinate
  | .osrmc_route _ _ _ => .osrmc_route
  | .osrmc_route_response_distance _ _ => .osrmc_route_response_distance
  | .osrmc_route_response_duration _ _ => .osrmc_route_response_duration
  | .osrmc_route_response_destruct _ => .osrmc_route_response_destruct
  | .osrmc_route_params_destruct _ => .osrmc_route_params_destruct
  | .osrmc_osrm_destruct _ => .osrmc_osrm_destruct
  | .osrmc_config_destruct _ => .osrmc_config_destruct

/-- The functions called along a trace, in order. -/
def called (t : Trace) : List Fn :=
  t.map Call.fn

/-- Whether a function is one of the four destructors. -/
def Fn.isDestructor : Fn → Bool
  | .osrmc_route_response_destruct => true
  | .osrmc_route_params_destruct => true
  | .osrmc_osrm_destruct => true
  | .osrmc_config_destruct => true
  | _ => false

/-- The destructor calls of a trace, in order. -/
def destructorCalls (t : Trace) : List Fn :=
  (called t).filter Fn.isDestructor

/-- The command line `example monaco.osrm`. -/
def argvMonaco : List String :=
  ["example", "monaco.osrm"]

/-- A library run in which every construction succeeds. -/
def libAllSucceed : Library :=
  ⟨1, 2, 3, 4, 1157234688, 1133903872⟩

/-- The calls of `main 2 argvMonaco libAllSucceed` made before `osrmc_route`. -/
def callsBeforeRoute : Trace :=
  [.osrmc_config_construct "monaco.osrm" 1,
    .osrmc_osrm_construct 1 2,
    .osrmc_route_params_construct 3,
    .osrmc_route_params_add_coordinate 3 ⟨7419758, 6⟩ ⟨43731142, 6⟩,
    .osrmc_route_params_add_coordinate 3 ⟨7419505, 6⟩ ⟨43736825, 6⟩]

/-- The calls of `main 2 argvMonaco libAllSucceed` made after `osrmc_route`. -/
def callsAfterRoute : Trace :=
  [.osrmc_route_response_distance 4 1157234688,
    .osrmc_route_response_duration 4 1133903872,
    .printf "Distance: %.0f meters\n" 1157234688,
    .printf "Duration: %.0f second\n" 1133903872]

/-- The calls of `main 2 argvMonaco libRouteFails` up to the release of the
params. -/
def callsUntilParamsReleased : Trace :=
  callsBeforeRoute ++
    [.osrmc_route 2 3 NULL,
      .fprintf_stderr "Error: unable to construct route response" [],
      .osrmc_route_response_destruct NULL,
      .osrmc_route_params_destruct 3]

/-- A library run in which `osrmc_config_construct` returns null. -/
def libConfigFails : Library :=
  ⟨NULL, 2, 3, 4, 0, 0⟩

/-- A library run in which `osrmc_osrm_construct` returns null after the config
was constructed. -/
def libOsrmFails : Library :=
  ⟨1, NULL, 3, 4, 0, 0⟩

/-- A library run in which `osrmc_route_params_construct` returns null after the
config and the engine were constructed. -/
def libParamsFail : Library :=
  ⟨1, 2, NULL, 4, 0, 0⟩

/-- A library run in which `osrmc_route` returns null after three successful
constructions. -/
def libRouteFails : Library :=
  ⟨1, 2, 3, NULL, 0, 0⟩

/-- `Stepwise P acc t`: every call of `t` satisfies `P` with respect to the
calls made before it, where `acc` holds the calls made before `t` starts. -/
def Stepwise (P : Trace → Call → Prop) : Trace → Trace → Prop
  | _, [] => True
  | acc, c :: t => P acc c ∧ Stepwise P (acc ++ [c]) t

/-! ## Auxiliary lemmas -/

theorem Stepwise.split {P : Trace → Call → Prop} {pre post : Trace} {c : Call} :
    ∀ {acc t : Trace}, Stepwise P acc t → t = pre ++ c :: post → P (acc ++ pre) c := by
  induction pre with
  | nil =>
    intro acc t h hs
    subst hs
    simpa using h.1
  | cons a pre ih =>
    intro acc t h hs
    subst hs
    have h2 : Stepwise P (acc ++ [a]) (pre ++ c :: post) := h.2
    simpa using ih h2 rfl

/-! ## Theorems -/

/-- C6: every handle passed to a library operation that is not a destructor is
non-null and was returned, non-null, by its constructor earlier in the same
run. -/
theorem checked_before_use (argc : Int) (argv : List String) (lib : Library)
    (pre post : Trace) (c : Call)
    (hsplit : (main argc argv lib).trace = pre ++ c :: post)
    (h : Handle) (hh : h ∈ c.uses) :
    h.ptr ≠ NULL ∧ h ∈ constructed pre := by
  have key : Stepwise (fun pre c => ∀ h ∈ c.uses, h.ptr ≠ NULL ∧ h ∈ constructed pre) []
      (main argc argv lib).trace := by
    simp only [main]
    split_ifs <;>
      simp [Stepwise, emit, usage_failure, config_failure, osrm_failure, params_failure,
        response_failure, Call.uses, constructed, Call.constructs, Call.returned, *]
  simpa using key.split hsplit h hh

/-- Witness of C6 at the call `osrmc_route(osrm, params)` of a fully successful
run: the engine handle passed was constructed before the call. -/
theorem checked_before_use_witness :
    (main 2 argvMonaco libAllSucceed).trace =
        callsBeforeRoute ++ Call.osrmc_route 2 3 4 :: callsAfterRoute ∧
      (⟨.osrm, 2⟩ : Handle) ∈ (Call.osrmc_route 2 3 4).uses ∧
      (⟨.osrm, 2⟩ : Handle).ptr ≠ NULL ∧
      (⟨.osrm, 2⟩ : Handle) ∈ constructed callsBeforeRoute :=
  ⟨rfl, by decide,
    checked_before_use 2 argvMonaco libAllSucceed callsBeforeRoute callsAfterRoute
      (Call.osrmc_route 2 3 4) rfl ⟨.osrm, 2⟩ (by decide)⟩

/-- C1, evaluated on the run in which all four constructions succeed: `main`
returns `EXIT_SUCCESS` having constructed four resources and invoked no
destructor, so none of the constructed resources is released. -/
theorem success_path_releases_nothing :
    (main 2 argvMonaco libAllSucceed).status = EXIT_SUCCESS ∧
      constructed (main 2 argvMonaco libAllSucceed).trace =
        [⟨.config, 1⟩, ⟨.osrm, 2⟩, ⟨.params, 3⟩, ⟨.response, 4⟩] ∧
      destroyed (main 2 argvMonaco libAllSucceed).trace = [] ∧
      ¬ (∀ h ∈ constructed (main 2 argvMonaco libAllSucceed).trace,
          h ∈ destroyed (main 2 argvMonaco libAllSucceed).trace) := by
  decide

/-- C2: in every run each of the four destructors is called at most once, and
no handle is passed to a destructor twice. -/
theorem no_double_release (argc : Int) (argv : List String) (lib : Library) :
    (called (main argc argv lib).trace).count .osrmc_route_response_destruct ≤ 1 ∧
      (called (main argc argv lib).trace).count .osrmc_route_params_destruct ≤ 1 ∧
      (called (main argc argv lib).trace).count .osrmc_osrm_destruct ≤ 1 ∧
      (called (main argc argv lib).trace).count .osrmc_config_destruct ≤ 1 ∧
      (destroyed (main argc argv lib).trace).Nodup := by
  simp only [main]
  split_ifs <;>
    simp [emit, usage_failure, config_failure, osrm_failure, params_failure,
      response_failure, called, Call.fn, destroyed, Call.destroys]

/-- C10: the destructor calls of every run form a suffix of the reverse
construction order response, params, engine, config; hence whenever the engine
destructor is called the config destructor has not been called yet, and
whenever the params destructor is called the engine destructor has not been
called yet. -/
theorem destructors_reverse_order (argc : Int) (argv : List String) (lib : Library) :
    destructorCalls (main argc argv lib).trace <:+
        [.osrmc_route_response_destruct, .osrmc_route_params_destruct,
          .osrmc_osrm_destruct, .osrmc_config_destruct] ∧
      ∀ (pre post : Trace) (c : Call), (main argc argv lib).trace = pre ++ c :: post →
        (c.fn = .osrmc_osrm_destruct → Fn.osrmc_config_destruct ∉ called pre) ∧
        (c.fn = .osrmc_route_params_destruct → Fn.osrmc_osrm_destruct ∉ called pre) := by
  constructor
  · simp only [main]
    split_ifs <;>
      simp [emit, usage_failure, config_failure, osrm_failure, params_failure,
        response_failure, destructorCalls, called, Call.fn, Fn.isDestructor] <;>
      decide
  · intro pre post c hsplit
    have key : Stepwise (fun pre c =>
        (c.fn = .osrmc_osrm_destruct → Fn.osrmc_config_destruct ∉ called pre) ∧
        (c.fn = .osrmc_route_params_destruct → Fn.osrmc_osrm_destruct ∉ called pre)) []
        (main argc argv lib).trace := by
      simp only [main]
      split_ifs <;>
        simp [Stepwise, emit, usage_failure, config_failure, osrm_failure, params_failure,
          response_failure, called, Call.fn]
    simpa using key.split hsplit

/-- Witness of C10 on the run in which `osrmc_route` fails: when the engine
destructor is called, the config destructor has not been called. -/
theorem destructors_reverse_order_witness :
    (main 2 argvMonaco libRouteFails).trace =
        callsUntilParamsReleased ++ Call.osrmc_osrm_destruct 2 :: [.osrmc_config_destruct 1] ∧
      destructorCalls (main 2 argvMonaco libRouteFails).trace <:+
        [.osrmc_route_response_destruct, .osrmc_route_params_destruct,
          .osrmc_osrm_destruct, .osrmc_config_destruct] ∧
      Fn.osrmc_config_destruct ∉ called callsUntilParamsReleased :=
  ⟨rfl, (destructors_reverse_order 2 argvMonaco libRouteFails).1,
    ((destructors_reverse_order 2 argvMonaco libRouteFails).2 callsUntilParamsReleased
      [.osrmc_config_destruct 1] (Call.osrmc_osrm_destruct 2) rfl).1 rfl⟩

/-- C3: on every failure path each resource constructed before the failure is
released exactly once before `main` returns.  In general: whenever the
argument count is wrong or one of the four constructions returns null, and
likewise whenever `main` returns `EXIT_FAILURE`, every constructed handle is
passed to its destructor exactly once.  Spelled out: if `osrmc_osrm_construct`
returns null, the config (the only resource constructed) is destructed once;
if `osrmc_route_params_construct` returns null, the engine and the config are
each destructed once; if `osrmc_route` returns null, the params, the engine
and the config are each destructed once; in each case `main` returns
`EXIT_FAILURE`. -/
theorem failure_paths_release_once (argc : Int) (argv : List String) (lib : Library) :
    ((argc ≠ 2 ∨ lib.config = NULL ∨ lib.osrm = NULL ∨ lib.params = NULL ∨
          lib.response = NULL) →
        ∀ h ∈ constructed (main argc argv lib).trace,
          (destroyed (main argc argv lib).trace).count h = 1) ∧
      ((main argc argv lib).status = EXIT_FAILURE →
        ∀ h ∈ constructed (main argc argv lib).trace,
          (destroyed (main argc argv lib).trace).count h = 1) ∧
      (argc = 2 → lib.config ≠ NULL → lib.osrm = NULL →
        constructed (main argc argv lib).trace = [⟨.config, lib.config⟩] ∧
        destroyedOf .config (main argc argv lib).trace = [lib.config] ∧
        (main argc argv lib).status = EXIT_FAILURE) ∧
      (argc = 2 → lib.config ≠ NULL → lib.osrm ≠ NULL → lib.params = NULL →
        constructed (main argc argv lib).trace =
          [⟨.config, lib.config⟩, ⟨.osrm, lib.osrm⟩] ∧
        destroyedOf .osrm (main argc argv lib).trace = [lib.osrm] ∧
        destroyedOf .config (main argc argv lib).trace = [lib.config] ∧
        (main argc argv lib).status = EXIT_FAILURE) ∧
      (argc = 2 → lib.config ≠ NULL → lib.osrm ≠ NULL → lib.params ≠ NULL →
        lib.response = NULL →
        constructed (main argc argv lib).trace =
          [⟨.config, lib.config⟩, ⟨.osrm, lib.osrm⟩, ⟨.params, lib.params⟩] ∧
        destroyedOf .params (main argc argv lib).trace = [lib.params] ∧
        destroyedOf .osrm (main argc argv lib).trace = [lib.osrm] ∧
        destroyedOf .config (main argc argv lib).trace = [lib.config] ∧
        (main argc argv lib).status = EXIT_FAILURE) := by
  refine ⟨?_, ?_, ?_, ?_, ?_⟩
  · intro hnull
    revert hnull
    simp only [main]
    split_ifs <;>
      simp_all [emit, usage_failure, config_failure, osrm_failure, params_failure,
        response_failure, constructed, Call.constructs, Call.returned, destroyed,
        Call.destroys] <;>
      intro h hh <;>
      casesm* _ ∨ _, _ ∧ _ <;>
      subst_vars <;>
      simp_all [List.count_cons]
  · intro hfail
    revert hfail
    simp only [main]
    split_ifs <;>
      simp_all [emit, usage_failure, config_failure, osrm_failure, params_failure,
        response_failure, constructed, Call.constructs, Call.returned, destroyed,
        Call.destroys, EXIT_SUCCESS, EXIT_FAILURE] <;>
      intro h hh <;>
      casesm* _ ∨ _, _ ∧ _ <;>
      subst_vars <;>
      simp_all [List.count_cons]
  · intro hargc hconfig hosrm
    simp [main, hargc, hconfig, hosrm, emit, usage_failure, config_failure, osrm_failure,
      constructed, Call.constructs, Call.returned, destroyed, destroyedOf, Call.destroys,
      List.filterMap_cons, Option.filter]
  · intro hargc hconfig hosrm hparams
    simp [main, hargc, hconfig, hosrm, hparams, emit, usage_failure, config_failure,
      osrm_failure, params_failure, constructed, Call.constructs, Call.returned, destroyed,
      destroyedOf, Call.destroys, List.filterMap_cons, Option.filter]
  · intro hargc hconfig hosrm hparams hresponse
    simp [main, hargc, hconfig, hosrm, hparams, hresponse, emit, usage_failure,
      config_failure, osrm_failure, params_failure, response_failure, constructed,
      Call.constructs, Call.returned, destroyed, destroyedOf, Call.destroys,
      List.filterMap_cons, Option.filter]

/-- Witness of C3 on the three failure paths that follow a successful
construction: a failing `osrmc_osrm_construct`, a failing
`osrmc_route_params_construct` and a failing `osrmc_route`. -/
theorem failure_paths_release_once_witness :
    ((destroyed (main 2 argvMonaco libRouteFails).trace).count ⟨.params, 3⟩ = 1 ∧
        (destroyed (main 2 argvMonaco libOsrmFails).trace).count ⟨.config, 1⟩ = 1) ∧
      (constructed (main 2 argvMonaco libOsrmFails).trace = [⟨.config, 1⟩] ∧
        destroyedOf .config (main 2 argvMonaco libOsrmFails).trace = [1] ∧
        (main 2 argvMonaco libOsrmFails).status = EXIT_FAILURE) ∧
      (constructed (main 2 argvMonaco libParamsFail).trace = [⟨.config, 1⟩, ⟨.osrm, 2⟩] ∧
        destroyedOf .osrm (main 2 argvMonaco libParamsFail).trace = [2] ∧
        destroyedOf .config (main 2 argvMonaco libParamsFail).trace = [1] ∧
        (main 2 argvMonaco libParamsFail).status = EXIT_FAILURE) ∧
      (constructed (main 2 argvMonaco libRouteFails).trace =
          [⟨.config, 1⟩, ⟨.osrm, 2⟩, ⟨.params, 3⟩] ∧
        destroyedOf .params (main 2 argvMonaco libRouteFails).trace = [3] ∧
        destroyedOf .osrm (main 2 argvMonaco libRouteFails).trace = [2] ∧
        destroyedOf .config (main 2 argvMonaco libRouteFails).trace = [1] ∧
        (main 2 argvMonaco libRouteFails).status = EXIT_FAILURE) :=
  ⟨⟨(failure_paths_release_once 2 argvMonaco libRouteFails).1
        (Or.inr (Or.inr (Or.inr (Or.inr rfl)))) ⟨.params, 3⟩ (by decide),
      (failure_paths_release_once 2 argvMonaco libOsrmFails).2.1 rfl ⟨.config, 1⟩
        (by decide)⟩,
    (failure_paths_release_once 2 argvMonaco libOsrmFails).2.2.1 rfl (by decide) rfl,
    (failure_paths_release_once 2 argvMonaco libParamsFail).2.2.2.1 rfl (by decide)
      (by decide) rfl,
    (failure_paths_release_once 2 argvMonaco libRouteFails).2.2.2.2 rfl (by decide)
      (by decide) (by decide) rfl⟩

/-- C4: with `argc = 2` and a null config no engine is attempted: none of
`osrmc_osrm_construct`, `osrmc_route_params_construct`,
`osrmc_route_params_add_coordinate` and `osrmc_route` is called, and `main`
returns `EXIT_FAILURE`. -/
theorem config_failure_stops (argc : Int) (argv : List String) (lib : Library)
    (hargc : argc = 2) (hnull : lib.config = NULL) :
    Fn.osrmc_osrm_construct ∉ called (main argc argv lib).trace ∧
      Fn.osrmc_route_params_construct ∉ called (main argc argv lib).trace ∧
      Fn.osrmc_route_params_add_coordinate ∉ called (main argc argv lib).trace ∧
      Fn.osrmc_route ∉ called (main argc argv lib).trace ∧
      (main argc argv lib).status = EXIT_FAILURE := by
  simp [main, hargc, hnull, emit, usage_failure, config_failure, called, Call.fn]

/-- Witness of C4 on the command line `example monaco.osrm` with a failing
`osrmc_config_construct`. -/
theorem config_failure_stops_witness :
    (2 : Int) = 2 ∧ libConfigFails.config = NULL ∧
      Fn.osrmc_osrm_construct ∉ called (main 2 argvMonaco libConfigFails).trace ∧
      Fn.osrmc_route_params_construct ∉ called (main 2 argvMonaco libConfigFails).trace ∧
      Fn.osrmc_route_params_add_coordinate ∉
        called (main 2 argvMonaco libConfigFails).trace ∧
      Fn.osrmc_route ∉ called (main 2 argvMonaco libConfigFails).trace ∧
      (main 2 argvMonaco libConfigFails).status = EXIT_FAILURE :=
  ⟨rfl, rfl, config_failure_stops 2 argvMonaco libConfigFails rfl rfl⟩

/-- C5 fails as stated: when `osrmc_config_construct` returns null, `main`
jumps to `config_failure` and calls `osrmc_config_destruct` on the null
config, so a destructor is invoked on a handle that was never constructed. -/
theorem null_config_is_destructed :
    (main 2 argvMonaco libConfigFails).trace =
        [.osrmc_config_construct "monaco.osrm" NULL,
          .fprintf_stderr "Error: unable to construct engine config" [],
          .osrmc_config_destruct NULL] ∧
      destroyed (main 2 argvMonaco libConfigFails).trace ≠ [] ∧
      ¬ (∀ h ∈ destroyed (main 2 argvMonaco libConfigFails).trace,
          h.ptr ≠ NULL ∧ h ∈ constructed (main 2 argvMonaco libConfigFails).trace) := by
  decide

/-- C5, amended: a destructor is invoked only on a handle its constructor
returned earlier in the same run, which is either a successfully constructed
resource or the null handle of a failed construction; at most one destructor
call of a run receives a null handle; and when `osrmc_config_construct`
returns null the only destructor call is `osrmc_config_destruct` on the null
config. -/
theorem destruct_only_returned (argc : Int) (argv : List String) (lib : Library) :
    (∀ (pre post : Trace) (c : Call) (h : Handle),
        (main argc argv lib).trace = pre ++ c :: post → c.destroys = some h →
        h ∈ constructed pre ∨ (h.ptr = NULL ∧ h ∈ returned pre)) ∧
      ((destroyed (main argc argv lib).trace).filter (fun h => h.ptr = NULL)).length ≤ 1 ∧
      (argc = 2 → lib.config = NULL →
        destroyed (main argc argv lib).trace = [⟨.config, NULL⟩]) := by
  refine ⟨?_, ?_, ?_⟩
  · intro pre post c h hsplit hd
    have key : Stepwise (fun pre c => ∀ h, c.destroys = some h →
        h ∈ constructed pre ∨ (h.ptr = NULL ∧ h ∈ returned pre)) []
        (main argc argv lib).trace := by
      simp only [main]
      split_ifs <;>
        simp_all [Stepwise, emit, usage_failure, config_failure, osrm_failure,
          params_failure, response_failure, Call.destroys, constructed, returned,
          Call.constructs, Call.returned]
    simpa using key.split hsplit h hd
  · simp only [main]
    split_ifs <;>
      simp_all [emit, usage_failure, config_failure, osrm_failure, params_failure,
        response_failure, destroyed, Call.destroys]
  · intro hargc hnull
    simp [main, hargc, hnull, emit, usage_failure, config_failure, destroyed, Call.destroys]

/-- Witness of the amended C5 on the run in which `osrmc_route` fails: the null
response passed to `osrmc_route_response_destruct` was returned by
`osrmc_route`; and on the run in which `osrmc_config_construct` fails. -/
theorem destruct_only_returned_witness :
    (main 2 argvMonaco libRouteFails).trace =
        (callsBeforeRoute ++ [.osrmc_route 2 3 NULL,
          .fprintf_stderr "Error: unable to construct route response" []])
        ++ Call.osrmc_route_response_destruct NULL ::
          [.osrmc_route_params_destruct 3, .osrmc_osrm_destruct 2, .osrmc_config_destruct 1] ∧
      ((⟨.response, NULL⟩ : Handle) ∈ constructed (callsBeforeRoute ++ [.osrmc_route 2 3 NULL,
          .fprintf_stderr "Error: unable to construct route response" []]) ∨
        ((⟨.response, NULL⟩ : Handle).ptr = NULL ∧
          (⟨.response, NULL⟩ : Handle) ∈ returned (callsBeforeRoute ++ [.osrmc_route 2 3 NULL,
            .fprintf_stderr "Error: unable to construct route response" []]))) ∧
      destroyed (main 2 argvMonaco libConfigFails).trace = [⟨.config, NULL⟩] :=
  ⟨rfl,
    (destruct_only_returned 2 argvMonaco libRouteFails).1 _ _
      (Call.osrmc_route_response_destruct NULL) ⟨.response, NULL⟩ rfl rfl,
    (destruct_only_returned 2 argvMonaco libConfigFails).2.2 rfl rfl⟩

/-- C7: whenever `main` calls `osrmc_route`, the query held by the params
handle it passes is exactly (7.419758, 43.731142) followed by
(7.419505, 43.736825), longitude first; so it holds at least two coordinates;
and `osrmc_route` is called at most once per run. -/
theorem route_query (argc : Int) (argv : List String) (lib : Library)
    (pre post : Trace) (osrm params response : Ptr)
    (hsplit : (main argc argv lib).trace =
      pre ++ Call.osrmc_route osrm params response :: post) :
    queryOf params pre = [(⟨7419758, 6⟩, ⟨43731142, 6⟩), (⟨7419505, 6⟩, ⟨43736825, 6⟩)] ∧
      2 ≤ (queryOf params pre).length ∧
      (called (main argc argv lib).trace).count .osrmc_route ≤ 1 := by
  have key : Stepwise (fun pre c => ∀ o p r, c = Call.osrmc_route o p r →
      queryOf p pre = [(⟨7419758, 6⟩, ⟨43731142, 6⟩), (⟨7419505, 6⟩, ⟨43736825, 6⟩)]) []
      (main argc argv lib).trace := by
    simp only [main]
    split_ifs <;>
      simp [Stepwise, emit, usage_failure, config_failure, osrm_failure, params_failure,
        response_failure, queryOf, queryStep]
  have hq := key.split hsplit osrm params response rfl
  simp only [List.nil_append] at hq
  refine ⟨hq, by simp [hq], ?_⟩
  simp only [main]
  split_ifs <;>
    simp [emit, usage_failure, config_failure, osrm_failure, params_failure,
      response_failure, called, Call.fn]

/-- Witness of C7 on the fully successful run. -/
theorem route_query_witness :
    (main 2 argvMonaco libAllSucceed).trace =
        callsBeforeRoute ++ Call.osrmc_route 2 3 4 :: callsAfterRoute ∧
      queryOf 3 callsBeforeRoute =
        [(⟨7419758, 6⟩, ⟨43731142, 6⟩), (⟨7419505, 6⟩, ⟨43736825, 6⟩)] ∧
      2 ≤ (queryOf 3 callsBeforeRoute).length ∧
      (called (main 2 argvMonaco libAllSucceed).trace).count .osrmc_route ≤ 1 :=
  ⟨rfl, route_query 2 argvMonaco libAllSucceed callsBeforeRoute callsAfterRoute 2 3 4 rfl⟩

/-- C8: once a destructor has been invoked on a handle, no later call of the
run takes that handle as an argument; in particular the response passed to
`osrmc_route_response_distance` and `osrmc_route_response_duration` has not
been destructed. -/
theorem destroyed_is_terminal (argc : Int) (argv : List String) (lib : Library)
    (pre post : Trace) (c : Call)
    (hsplit : (main argc argv lib).trace = pre ++ c :: post)
    (h : Handle) (hh : h ∈ c.handles) :
    h ∉ destroyed pre := by
  have key : Stepwise (fun pre c => ∀ h ∈ c.handles, h ∉ destroyed pre) []
      (main argc argv lib).trace := by
    simp only [main]
    split_ifs <;>
      simp [Stepwise, emit, usage_failure, config_failure, osrm_failure, params_failure,
        response_failure, Call.handles, Call.uses, destroyed, Call.destroys]
  simpa using key.split hsplit h hh

/-- Witness of C8 on the run in which `osrmc_route` fails: the engine passed
to `osrmc_osrm_destruct` has not been destructed before. -/
theorem destroyed_is_terminal_witness :
    (main 2 argvMonaco libRouteFails).trace =
        callsUntilParamsReleased ++ Call.osrmc_osrm_destruct 2 :: [.osrmc_config_destruct 1] ∧
      (⟨.osrm, 2⟩ : Handle) ∈ (Call.osrmc_osrm_destruct 2).handles ∧
      (⟨.osrm, 2⟩ : Handle) ∉ destroyed callsUntilParamsReleased :=
  ⟨rfl, by decide,
    destroyed_is_terminal 2 argvMonaco libRouteFails callsUntilParamsReleased
      [.osrmc_config_destruct 1] (Call.osrmc_osrm_destruct 2) rfl ⟨.osrm, 2⟩ (by decide)⟩

/-- C9: `main` returns `EXIT_SUCCESS` exactly when `argc = 2` and all four
constructions return a non-null handle, and `EXIT_FAILURE` in every other
case; with `argc ≠ 2` it makes no call to the routing library. -/
theorem exit_status (argc : Int) (argv : List String) (lib : Library) :
    ((main argc argv lib).status = EXIT_SUCCESS ↔
        argc = 2 ∧ lib.config ≠ NULL ∧ lib.osrm ≠ NULL ∧ lib.params ≠ NULL ∧
          lib.response ≠ NULL) ∧
      (¬ (argc = 2 ∧ lib.config ≠ NULL ∧ lib.osrm ≠ NULL ∧ lib.params ≠ NULL ∧
          lib.response ≠ NULL) → (main argc argv lib).status = EXIT_FAILURE) ∧
      (argc ≠ 2 → (main argc argv lib).trace.filter Call.isLibrary = []) := by
  simp only [main]
  split_ifs <;>
    simp_all [emit, usage_failure, config_failure, osrm_failure, params_failure,
      response_failure, Call.isLibrary, EXIT_SUCCESS, EXIT_FAILURE]

/-- Witness of C9: a fully successful run returns `EXIT_SUCCESS`, a run with a
failing `osrmc_route` returns `EXIT_FAILURE`, and a run without a dataset
argument returns `EXIT_FAILURE` without calling the routing library. -/
theorem exit_status_witness :
    (main 2 argvMonaco libAllSucceed).status = EXIT_SUCCESS ∧
      (main 2 argvMonaco libRouteFails).status = EXIT_FAILURE ∧
      (main 1 ["example"] libAllSucceed).trace.filter Call.isLibrary = [] :=
  ⟨(exit_status 2 argvMonaco libAllSucceed).1.2 (by decide),
    (exit_status 2 argvMonaco libRouteFails).2.1 (by decide),
    (exit_status 1 ["example"] libAllSucceed).2.2 (by decide)⟩

end Osrmc
